import Mathlib

/-!
Verification development for the ftrt-cambrian-correlation repository.

The repository ships a React frontend (frontend/src/services/api.js,
frontend/src/components/Dashboard.js, frontend/src/components/DataExplorer.js)
together with API documentation (docs/documentos.md) describing the JSON
shapes emitted at the boundary.  The backend correlation engine
(CosmicEvolutionCorrelator, StatisticalAnalyzer, PlanetaryTidalForceEngine)
is referenced by the documentation but its source is not part of the
repository snapshot; those components are modelled from the specification
and marked as such below.

Numbers appearing in JSON payloads are modelled as rationals; the engine
analytics (Pearson correlation, t-test p-value, Fisher confidence interval)
are modelled over the reals.
-/

/-! ## JSON boundary model, from docs/documentos.md section 2 (API examples) -/

/-- JSON value shapes appearing in the documented API payloads. -/
inductive JVal : Type
  | str (s : String)
  | num (q : ℚ)
  | bool (b : Bool)
  | arr (elems : List JVal)

/-- Cosmic event type enumeration, tokens from the documented payloads. -/
inductive CosmicEventType : Type
  | planetary_alignment
  | geomagnetic_weakness
deriving DecidableEq

/-- Evolutionary event type enumeration, tokens from the documented payloads. -/
inductive EvolutionaryEventType : Type
  | speciation
  | extinction
deriving DecidableEq

/-- Literal token used for a cosmic event type in serialized JSON. -/
def cosmicTypeToken : CosmicEventType → String
  | .planetary_alignment => "planetary_alignment"
  | .geomagnetic_weakness => "geomagnetic_weakness"

/-- Literal token used for an evolutionary event type in serialized JSON. -/
def evolutionaryTypeToken : EvolutionaryEventType → String
  | .speciation => "speciation"
  | .extinction => "extinction"

/-- Boundary record for a cosmic event as it appears in API responses
(docs/documentos.md, cosmic_events example): timestamp carried as an
ISO-8601 string, a type token, a decimal magnitude, a duration and a
description. -/
structure CosmicEventJson : Type where
  timestamp : String
  event_type : CosmicEventType
  magnitude : ℚ
  duration_days : ℕ
  description : String

/-- Boundary record for an evolutionary event as it appears in API
responses (docs/documentos.md, evolutionary_events example). -/
structure EvolutionaryEventJson : Type where
  timestamp : String
  event_type : EvolutionaryEventType
  magnitude : ℚ
  affected_taxa : List String
  description : String

/-- Boundary record for a correlation result as it appears in API
responses (docs/documentos.md, correlation_results example). -/
structure CorrelationResultJson : Type where
  correlation_coefficient : ℚ
  p_value : ℚ
  time_lag_days : ℤ
  confidence_interval : ℚ × ℚ
  significant : Bool

/-- Serialization of a cosmic event to JSON fields, following the
documented response example: the event-type field is emitted under the
key named type. -/
def serializeCosmicEvent (e : CosmicEventJson) : List (String × JVal) :=
  [("timestamp", JVal.str e.timestamp),
   ("type", JVal.str (cosmicTypeToken e.event_type)),
   ("magnitude", JVal.num e.magnitude),
   ("duration_days", JVal.num e.duration_days),
   ("description", JVal.str e.description)]

/-- Serialization of an evolutionary event to JSON fields, following the
documented response example. -/
def serializeEvolutionaryEvent (e : EvolutionaryEventJson) : List (String × JVal) :=
  [("timestamp", JVal.str e.timestamp),
   ("type", JVal.str (evolutionaryTypeToken e.event_type)),
   ("magnitude", JVal.num e.magnitude),
   ("affected_taxa", JVal.arr (e.affected_taxa.map JVal.str)),
   ("description", JVal.str e.description)]

/-- Serialization of a correlation result to JSON fields, following the
documented response example. -/
def serializeCorrelationResult (r : CorrelationResultJson) : List (String × JVal) :=
  [("correlation_coefficient", JVal.num r.correlation_coefficient),
   ("p_value", JVal.num r.p_value),
   ("time_lag_days", JVal.num r.time_lag_days),
   ("confidence_interval",
     JVal.arr [JVal.num r.confidence_interval.1, JVal.num r.confidence_interval.2]),
   ("significant", JVal.bool r.significant)]

/-! ## API response envelope and accessors, from docs/documentos.md
(Formato de Respuesta) and frontend/src/services/api.js -/

/-- Response envelope: every documented JSON response is either a success
envelope carrying data and a message, or a failure envelope carrying an
error and a message. -/
inductive ApiEnvelope (δ : Type) : Type
  | success (data : δ) (message : String)
  | failure (error : String) (message : String)

/-- Success flag of an envelope. -/
def ApiEnvelope.isSuccess {δ : Type} : ApiEnvelope δ → Bool
  | .success _ _ => true
  | .failure _ _ => false

/-- JavaScript string-or idiom a-or-b: the left operand unless it is the
empty string (falsy). -/
def jsStringOr (s dflt : String) : String :=
  if s = "" then dflt else s

/-- Model of getCorrelations in frontend/src/services/api.js: returns the
parsed response object when its success flag is set, otherwise throws an
error built from the response message with a fallback text. -/
def getCorrelations {δ : Type} (resp : ApiEnvelope δ) : Except String (ApiEnvelope δ) :=
  match resp with
  | .success d m => Except.ok (ApiEnvelope.success d m)
  | .failure _ m => Except.error (jsStringOr m "Failed to fetch correlations")

/-- JavaScript truthiness of an optional string argument: absent and
empty strings are falsy. -/
def jsTruthy : Option String → Bool
  | none => false
  | some s => !(s == "")

/-- Request URL built by getCosmicEvents in frontend/src/services/api.js:
the type query parameter is appended only when the type argument is
truthy. -/
def getCosmicEventsUrl (base startDate endDate : String) (ty : Option String) : String :=
  let url := base ++ "/api/cosmic-events?start_date=" ++ startDate ++ "&end_date=" ++ endDate
  if jsTruthy ty then url ++ "&type=" ++ ty.getD "" else url

/-- Request URL built by getEvolutionaryEvents in
frontend/src/services/api.js: the type query parameter is appended only
when the type argument is truthy. -/
def getEvolutionaryEventsUrl (base startDate endDate : String) (ty : Option String) : String :=
  let url := base ++ "/api/evolutionary-events?start_date=" ++ startDate ++ "&end_date=" ++ endDate
  if jsTruthy ty then url ++ "&type=" ++ ty.getD "" else url

/-! ## DataExplorer model, from frontend/src/components/DataExplorer.js -/

/-- Event row as consumed by the DataExplorer table: timestamp modelled
as an integer day index (the component compares timestamps through Date
objects, which is an order-preserving reading), a type token string, a
decimal magnitude and a description. -/
structure ExplorerEvent : Type where
  timestamp : ℤ
  type : String
  magnitude : ℚ
  description : String
deriving DecidableEq

/-- Dataset selector of the DataExplorer component. -/
inductive ActiveDataset : Type
  | cosmic
  | evolutionary
deriving DecidableEq

/-- Sort column selector of the DataExplorer component, one per sortable
column key used by handleSort. -/
inductive SortColumn : Type
  | timestamp
  | typeCol
  | magnitude
deriving DecidableEq

/-- Sort direction of the DataExplorer component. -/
inductive SortOrder : Type
  | asc
  | desc
deriving DecidableEq

/-- Key order used by the DataExplorer comparator on a given column. -/
def sortKeyLE (sb : SortColumn) (a b : ExplorerEvent) : Bool :=
  match sb with
  | .timestamp => decide (a.timestamp ≤ b.timestamp)
  | .typeCol => decide (a.type ≤ b.type)
  | .magnitude => decide (a.magnitude ≤ b.magnitude)

/-- Placement order realized by the DataExplorer comparator, which
returns 1 when the first key is greater (ascending) or smaller
(descending) and -1 otherwise: element a precedes element b exactly when
this is true. -/
def jsComparatorLE (sb : SortColumn) (so : SortOrder) (a b : ExplorerEvent) : Bool :=
  match so with
  | .asc => sortKeyLE sb a b
  | .desc => sortKeyLE sb b a

/-- Stable insertion of an element into a sorted list, placing it before
the first element it may precede. -/
def jsOrderedInsert {α : Type} (le : α → α → Bool) (a : α) : List α → List α
  | [] => [a]
  | b :: l => if le a b then a :: b :: l else b :: jsOrderedInsert le a l

/-- Stable sort modelling Array.prototype.sort under the component's
comparator (ECMAScript sorts are stable). -/
def jsStableSort {α : Type} (le : α → α → Bool) : List α → List α
  | [] => []
  | a :: l => jsOrderedInsert le a (jsStableSort le l)

/-- Sort performed by the DataExplorer useMemo body on the active
dataset. -/
def jsArraySort (sb : SortColumn) (so : SortOrder) (l : List ExplorerEvent) : List ExplorerEvent :=
  jsStableSort (jsComparatorLE sb so) l

/-- Filter predicate of the DataExplorer useMemo body: the lowercased
type or description must contain the lowercased filter text. -/
def matchesFilter (flt : String) (e : ExplorerEvent) : Bool :=
  (e.type.toLower).containsSubstr (flt.toLower).toSubstring ||
    (e.description.toLower).containsSubstr (flt.toLower).toSubstring

/-- Model of the DataExplorer useMemo body.  The returned triple is the
displayed list followed by the cosmicEvents and evolutionaryEvents arrays
as they stand after the invocation.  When the filter string is empty the
component calls sort directly on the array it received (filter is only
applied, producing a fresh array, when the filter text is truthy), so the
active dataset is reordered in place. -/
def dataExplorerData (ds : ActiveDataset) (flt : String) (sb : SortColumn) (so : SortOrder)
    (cosmicEvents evolutionaryEvents : List ExplorerEvent) :
    List ExplorerEvent × List ExplorerEvent × List ExplorerEvent :=
  if flt = "" then
    match ds with
    | .cosmic =>
        let sorted := jsArraySort sb so cosmicEvents
        (sorted, sorted, evolutionaryEvents)
    | .evolutionary =>
        let sorted := jsArraySort sb so evolutionaryEvents
        (sorted, cosmicEvents, sorted)
  else
    let dataset := match ds with
      | .cosmic => cosmicEvents
      | .evolutionary => evolutionaryEvents
    (jsArraySort sb so (dataset.filter (matchesFilter flt)), cosmicEvents, evolutionaryEvents)

/-! ## Correlation engine data model.  The backend analysis code
(backend/app/core, per docs/documentos.md section 5) is not part of the
repository snapshot, so the engine is modelled from the specification. -/

/-- Modelled from the spec: CorrelationResult record of section 3, for
the missing CorrelationAnalyzer backend module.  Real-valued fields are
taken in an arbitrary linear ordered field so the same record serves the
rational selection logic and the real-valued analytics. -/
structure CorrelationResult (α : Type) : Type where
  time_lag_days : ℤ
  correlation_coefficient : α
  p_value : α
  confidence_interval : Option (α × α)
  significant : Bool
deriving DecidableEq

/-- Modelled from the spec: significance rule of section 4.3 step 3 for
the missing CorrelationAnalyzer backend module.  A result is significant
exactly when the p-value is below 0.05 and the overlap sample count
reaches the configured minimum. -/
def significantFlag {α : Type} [LinearOrderedField α] (minSamples : ℕ) (p : α) (n : ℕ) : Bool :=
  decide (p < 5 / 100 ∧ minSamples ≤ n)

/-- Modelled from the spec: construction of a CorrelationResult by the
missing CorrelationAnalyzer backend module; the significant flag is
derived from the p-value and the overlap sample count, never stored
independently. -/
def mkCorrelationResult {α : Type} [LinearOrderedField α] (minSamples : ℕ) (lag : ℤ)
    (cc p : α) (ci : Option (α × α)) (n : ℕ) : CorrelationResult α :=
  { time_lag_days := lag
    correlation_coefficient := cc
    p_value := p
    confidence_interval := ci
    significant := significantFlag minSamples p n }

/-- Modelled from the spec: strict preference between two results used by
best-correlation selection in section 4.3 step 5 of the missing
CorrelationAnalyzer backend module.  A result is strictly better when its
absolute coefficient is larger; ties are broken by smaller p-value, then
by smaller absolute time lag. -/
def betterResult {α : Type} [LinearOrderedField α] (a b : CorrelationResult α) : Bool :=
  decide (|b.correlation_coefficient| < |a.correlation_coefficient| ∨
    (|a.correlation_coefficient| = |b.correlation_coefficient| ∧
      (a.p_value < b.p_value ∨
        (a.p_value = b.p_value ∧ |a.time_lag_days| < |b.time_lag_days|))))

/-- Modelled from the spec: one accumulation step of best-correlation
selection, keeping the incumbent unless the new result is strictly
better. -/
def selectStep {α : Type} [LinearOrderedField α] (acc : Option (CorrelationResult α))
    (r : CorrelationResult α) : Option (CorrelationResult α) :=
  match acc with
  | none => some r
  | some b => if betterResult r b then some r else some b

/-- Modelled from the spec: best-correlation selection of section 4.3
step 5 for the missing CorrelationAnalyzer backend module; returns none
when no result is available. -/
def selectBest {α : Type} [LinearOrderedField α] (rs : List (CorrelationResult α)) :
    Option (CorrelationResult α) :=
  rs.foldl selectStep none

/-- Lexicographic ranking key realizing the tie-break rule: a result is
strictly better than another exactly when its key is smaller.  Used only
in proofs about selectBest. -/
def resultKey {α : Type} [LinearOrderedField α] (r : CorrelationResult α) :
    α ×ₗ (α ×ₗ ℤ) :=
  toLex (-|r.correlation_coefficient|, toLex (r.p_value, |r.time_lag_days|))

/-- Modelled from the spec: CosmicEvent record of section 3 for the
missing TidalForceEngine backend module; instants are modelled as integer
day indices on the daily discretization grid. -/
structure CosmicEvent : Type where
  timestamp : ℤ
  event_type : CosmicEventType
  magnitude : ℚ
  duration_days : ℕ
  description : String
deriving DecidableEq

/-- Modelled from the spec: EvolutionaryEvent record of section 3 for the
missing EvolutionaryEventCollector backend module. -/
structure EvolutionaryEvent : Type where
  timestamp : ℤ
  event_type : EvolutionaryEventType
  magnitude : ℚ
  affected_taxa : List String
  description : String
deriving DecidableEq

/-- Modelled from the spec: CorrelationReport record of section 3 for the
missing orchestrator backend module. -/
structure CorrelationReport (α : Type) : Type where
  cosmic_events : List CosmicEvent
  evolutionary_events : List EvolutionaryEvent
  correlation_results : List (CorrelationResult α)
  best_correlation : Option (CorrelationResult α)
  start_date : ℤ
  end_date : ℤ

/-! ## Engine analytics over the reals (modelled from the spec,
section 4.3 steps 2 to 4). -/

/-- Modelled from the spec: arithmetic mean of the first n samples of a
series, for the missing CorrelationAnalyzer backend module. -/
noncomputable def seriesMean (n : ℕ) (x : ℕ → ℝ) : ℝ :=
  (∑ i ∈ Finset.range n, x i) / n

/-- Modelled from the spec: deviation of a sample from the series mean. -/
noncomputable def seriesDev (n : ℕ) (x : ℕ → ℝ) (i : ℕ) : ℝ :=
  x i - seriesMean n x

/-- Modelled from the spec: root of the sum of squared deviations of a
series, the denominator factor of the Pearson coefficient. -/
noncomputable def seriesSd (n : ℕ) (x : ℕ → ℝ) : ℝ :=
  Real.sqrt (∑ i ∈ Finset.range n, seriesDev n x i ^ 2)

/-- Modelled from the spec: sum of products of deviations, the numerator
of the Pearson coefficient. -/
noncomputable def covSum (n : ℕ) (x y : ℕ → ℝ) : ℝ :=
  ∑ i ∈ Finset.range n, seriesDev n x i * seriesDev n y i

/-- Modelled from the spec: Pearson correlation coefficient of two
aligned series of n overlapping samples, for the missing
CorrelationAnalyzer backend module.  A degenerate (constant) series makes
the denominator zero; the division is guarded and the lag is skipped by
returning none rather than propagating a NaN. -/
noncomputable def pearsonR (n : ℕ) (x y : ℕ → ℝ) : Option ℝ :=
  if seriesSd n x * seriesSd n y = 0 then none
  else some (covSum n x y / (seriesSd n x * seriesSd n y))

/-- Modelled from the spec: t statistic of a correlation coefficient
under the null hypothesis, with n - 2 degrees of freedom, for the missing
CorrelationAnalyzer backend module. -/
noncomputable def tStatistic (r : ℝ) (n : ℕ) : ℝ :=
  r * Real.sqrt (((n : ℝ) - 2) / (1 - r ^ 2))

/-- Modelled from the spec: two-sided p-value of a test statistic, given
the cumulative distribution function of the reference t distribution (the
distribution itself lives in the missing backend; it enters the model as
configuration). -/
noncomputable def pValue (cdf : ℝ → ℝ) (t : ℝ) : ℝ :=
  2 * (1 - cdf |t|)

/-- Modelled from the spec: 95 percent Fisher z confidence interval for a
correlation coefficient from n overlapping samples, for the missing
CorrelationAnalyzer backend module.  The z transform is expanded through
its logarithmic form, the interval is built with standard error
1 over sqrt of n - 3, and the computation is omitted when n is at
most 3. -/
noncomputable def fisherCI (r : ℝ) (n : ℕ) : Option (ℝ × ℝ) :=
  if n ≤ 3 then none
  else
    let z := Real.log ((1 + r) / (1 - r)) / 2
    let d := 196 / 100 / Real.sqrt ((n : ℝ) - 3)
    some (Real.tanh (z - d), Real.tanh (z + d))

/-- Modelled from the spec: engine configuration of the missing
CorrelationAnalyzer backend module: the minimum overlap sample count and
the cumulative distribution function of the reference t distribution. -/
structure EngineConfig : Type where
  minSamples : ℕ
  cdf : ℝ → ℝ

/-- Modelled from the spec: daily discretization bin value (magnitude
sum) of a point-event list at a given day, for the missing
CorrelationAnalyzer backend module. -/
def binValue (pts : List (ℤ × ℚ)) (d : ℤ) : ℚ :=
  ((pts.filter (fun p => p.1 = d)).map (fun p => p.2)).sum

/-- Modelled from the spec: day range spanned by the union of two
point-event lists, none when both are empty. -/
def timeGrid (pts1 pts2 : List (ℤ × ℚ)) : Option (ℤ × ℤ) :=
  match (pts1 ++ pts2).map (fun p => p.1) with
  | [] => none
  | d :: ds => some (ds.foldl min d, ds.foldl max d)

/-- Modelled from the spec: day-and-magnitude points of a cosmic event
list. -/
def cosmicPoints (es : List CosmicEvent) : List (ℤ × ℚ) :=
  es.map (fun e => (e.timestamp, e.magnitude))

/-- Modelled from the spec: day-and-magnitude points of an evolutionary
event list. -/
def evolutionaryPoints (es : List EvolutionaryEvent) : List (ℤ × ℚ) :=
  es.map (fun e => (e.timestamp, e.magnitude))

/-- Modelled from the spec: one step of the lag sweep of section 4.3 for
the missing CorrelationAnalyzer backend module.  The cosmic series is
shifted by the lag relative to the evolutionary series, the overlap of
the two day ranges is taken, the lag is skipped when the overlap holds
fewer than the configured minimum number of samples or when the Pearson
computation is degenerate, and otherwise a result is assembled with the
two-sided p-value and the Fisher confidence interval. -/
noncomputable def resultAtLag (cfg : EngineConfig) (lo hi : ℤ) (cs es : ℤ → ℚ) (lag : ℤ) :
    Option (CorrelationResult ℝ) :=
  let lo' := max lo (lo + lag)
  let hi' := min hi (hi + lag)
  let n := (hi' - lo' + 1).toNat
  if n < cfg.minSamples then none
  else
    let x := fun i : ℕ => ((es (lo' + i) : ℚ) : ℝ)
    let y := fun i : ℕ => ((cs (lo' + i - lag) : ℚ) : ℝ)
    match pearsonR n x y with
    | none => none
    | some r =>
        some (mkCorrelationResult cfg.minSamples lag r
          (pValue cfg.cdf (tStatistic r n)) (fisherCI r n) n)

/-- Modelled from the spec: the swept lag list, every integer lag from
minus max-lag to plus max-lag. -/
def lagRange (maxLag : ℕ) : List ℤ :=
  (List.range (2 * maxLag + 1)).map (fun k => (k : ℤ) - (maxLag : ℤ))

/-- Modelled from the spec: the CorrelationAnalyzer contract of
section 4.3 for the missing backend module.  Both event lists are
discretized onto the shared daily grid spanning the union of their
ranges, every lag in the swept range is evaluated, and skipped lags are
omitted from the result list. -/
noncomputable def analyze (cfg : EngineConfig) (cosmic : List CosmicEvent)
    (evo : List EvolutionaryEvent) (maxLag : ℕ) : List (CorrelationResult ℝ) :=
  match timeGrid (cosmicPoints cosmic) (evolutionaryPoints evo) with
  | none => []
  | some (lo, hi) =>
      (lagRange maxLag).filterMap
        (resultAtLag cfg lo hi (binValue (cosmicPoints cosmic)) (binValue (evolutionaryPoints evo)))

/-- Modelled from the spec: whole-request failure taxonomy of section 7
for the missing orchestrator backend module. -/
inductive EngineError : Type
  | InvalidRange
  | DataUnavailable
deriving DecidableEq

/-- Modelled from the spec: the orchestrator contract GetCorrelationReport
of sections 4.4 and 6 for the missing CosmicEvolutionCorrelator backend
module.  The date range is validated, both upstream event lists (the
frozen upstream data) are filtered to the window, the analyzer is run and
the report is assembled with the best correlation selected by the
tie-break rule and with the requested window echoed back. -/
noncomputable def GetCorrelationReport (cfg : EngineConfig) (start_date end_date : ℤ)
    (max_lag_days : ℕ) (cosmic : List CosmicEvent) (evo : List EvolutionaryEvent) :
    Except EngineError (CorrelationReport ℝ) :=
  if end_date ≤ start_date then Except.error EngineError.InvalidRange
  else
    let ce := cosmic.filter (fun e => decide (start_date ≤ e.timestamp ∧ e.timestamp ≤ end_date))
    let ee := evo.filter (fun e => decide (start_date ≤ e.timestamp ∧ e.timestamp ≤ end_date))
    let rs := analyze cfg ce ee max_lag_days
    Except.ok
      { cosmic_events := ce
        evolutionary_events := ee
        correlation_results := rs
        best_correlation := selectBest rs
        start_date := start_date
        end_date := end_date }

/-! ## Dashboard model, from frontend/src/components/Dashboard.js -/

/-- State of the Dashboard component relevant to the fetch sequences:
the loading flag, the error message, and the three data payloads. -/
structure DashState (α β γ : Type) : Type where
  loading : Bool
  error : Option String
  correlations : Option α
  cosmicEvents : β
  evolutionaryEvents : γ
deriving DecidableEq

/-- Outcomes of the three API calls issued by a Dashboard fetch sequence,
in call order: correlations, cosmic events, evolutionary events. -/
def FetchResults (α β γ : Type) : Type :=
  Except String α × Except String β × Except String γ

/-- Shared body of both Dashboard fetch sequences: awaits the three calls
in order, storing each payload as it arrives; the first failure jumps to
the catch block, which records the error message and clears the loading
flag. -/
def runFetches {α β γ : Type} (s : DashState α β γ) (r : FetchResults α β γ) :
    DashState α β γ :=
  match r.1 with
  | .error m => { s with error := some m, loading := false }
  | .ok c =>
      let s1 := { s with correlations := some c }
      match r.2.1 with
      | .error m => { s1 with error := some m, loading := false }
      | .ok ce =>
          let s2 := { s1 with cosmicEvents := ce }
          match r.2.2 with
          | .error m => { s2 with error := some m, loading := false }
          | .ok ee => { s2 with evolutionaryEvents := ee, loading := false }

/-- Model of the initial useEffect fetchData sequence of Dashboard.js: it
sets loading and clears the error before awaiting the three calls. -/
def fetchData {α β γ : Type} (s : DashState α β γ) (r : FetchResults α β γ) :
    DashState α β γ :=
  runFetches { s with loading := true, error := none } r

/-- Model of the handleRefresh sequence of Dashboard.js: it sets loading
and then runs the same fetch body, without clearing the error first. -/
def handleRefresh {α β γ : Type} (s : DashState α β γ) (r : FetchResults α β γ) :
    DashState α β γ :=
  runFetches { s with loading := true } r

/-- A fetch triple in which some call fails. -/
def fetchFails {α β γ : Type} (r : FetchResults α β γ) : Prop :=
  r.1.isOk = false ∨ r.2.1.isOk = false ∨ r.2.2.isOk = false

/-- Model of the Key Findings guard in Dashboard.js: the card is rendered
exactly when the correlations object is present (truthy) and its
best_correlation field is present (truthy). -/
def showKeyFindings {α : Type} (correlations : Option (CorrelationReport α)) : Bool :=
  match correlations with
  | none => false
  | some c => c.best_correlation.isSome

/-! ## Concrete sample data used by witnesses and counterexamples -/

/-- Sample explorer row with the earlier timestamp. -/
def evSampleA : ExplorerEvent :=
  { timestamp := 3, type := "planetary_alignment", magnitude := 1, description := "FTRT peak" }

/-- Sample explorer row with the later timestamp. -/
def evSampleB : ExplorerEvent :=
  { timestamp := 5, type := "geomagnetic_weakness", magnitude := 2, description := "field minimum" }

/-- Sample Dashboard state carrying a leftover error from a failed
fetch. -/
def dashSampleState : DashState ℕ ℕ ℕ :=
  { loading := false, error := some "previous failure", correlations := none,
    cosmicEvents := 0, evolutionaryEvents := 0 }

/-- Sample fetch outcome triple in which all three calls succeed. -/
def dashSampleFetches : FetchResults ℕ ℕ ℕ :=
  (Except.ok 1, Except.ok 2, Except.ok 3)

/-- Sample correlation result, the documented strongest one. -/
def resSampleA : CorrelationResult ℚ :=
  { time_lag_days := 30, correlation_coefficient := 65 / 100, p_value := 2 / 100,
    confidence_interval := some (55 / 100, 75 / 100), significant := true }

/-- Sample correlation result, a weaker one. -/
def resSampleB : CorrelationResult ℚ :=
  { time_lag_days := 10, correlation_coefficient := -1 / 2, p_value := 1 / 100,
    confidence_interval := none, significant := false }

/-- Step function serving as a concrete cumulative distribution function
in witnesses: monotone, bounded by one, and equal to one half at zero. -/
noncomputable def cdfStep : ℝ → ℝ :=
  fun x => if 0 ≤ x then 1 / 2 else 0

/-- Sample engine configuration with minimum overlap two, used by the
analytics witness. -/
noncomputable def cfgSample : EngineConfig :=
  { minSamples := 2, cdf := cdfStep }

/-- Sample engine configuration with the default minimum overlap, used by
the orchestrator witnesses. -/
noncomputable def cfgDefault : EngineConfig :=
  { minSamples := 30, cdf := fun _ => 1 / 2 }

/-- Sample discretized daily series: zero on day zero, one elsewhere. -/
def seriesSample : ℤ → ℚ :=
  fun t => if t = 0 then 0 else 1

/-- Sample computed result: the lag-zero correlation of the sample
series against itself on the two-day window, a perfect coefficient of
one with p-value one and no confidence interval. -/
noncomputable def resWitness : CorrelationResult ℝ :=
  mkCorrelationResult 2 0 1 1 none 2

/-- Sample report produced by the orchestrator on empty upstream data
over the window from day 0 to day 1. -/
def repEmpty : CorrelationReport ℝ where
  cosmic_events := []
  evolutionary_events := []
  correlation_results := []
  best_correlation := none
  start_date := 0
  end_date := 1

/-! ## Theorems -/

/-- C10: for every start and end date, getCosmicEvents and
getEvolutionaryEvents include a type query parameter in the request URL
exactly when the caller supplies a truthy type argument; when type is
omitted the URL carries only start_date and end_date. -/
theorem eventsUrl_type_param (base s e : String) (ty : Option String) :
    (jsTruthy ty = true →
      getCosmicEventsUrl base s e ty =
        base ++ "/api/cosmic-events?start_date=" ++ s ++ "&end_date=" ++ e ++
          "&type=" ++ ty.getD "" ∧
      getEvolutionaryEventsUrl base s e ty =
        base ++ "/api/evolutionary-events?start_date=" ++ s ++ "&end_date=" ++ e ++
          "&type=" ++ ty.getD "") ∧
    (jsTruthy ty = false →
      getCosmicEventsUrl base s e ty =
        base ++ "/api/cosmic-events?start_date=" ++ s ++ "&end_date=" ++ e ∧
      getEvolutionaryEventsUrl base s e ty =
        base ++ "/api/evolutionary-events?start_date=" ++ s ++ "&end_date=" ++ e) := by
  constructor <;> intro h <;>
    simp [getCosmicEventsUrl, getEvolutionaryEventsUrl, h]

/-- Witness for eventsUrl_type_param: a truthy type appends the
parameter, an omitted type leaves only the date parameters. -/
theorem eventsUrl_type_param_witness :
    getCosmicEventsUrl "http://localhost:5000" "2020-01-01" "2020-12-31" (some "ftrt") =
      "http://localhost:5000" ++ "/api/cosmic-events?start_date=" ++ "2020-01-01" ++
        "&end_date=" ++ "2020-12-31" ++ "&type=" ++ (some "ftrt").getD "" ∧
    getEvolutionaryEventsUrl "http://localhost:5000" "2020-01-01" "2020-12-31" none =
      "http://localhost:5000" ++ "/api/evolutionary-events?start_date=" ++ "2020-01-01" ++
        "&end_date=" ++ "2020-12-31" :=
  ⟨((eventsUrl_type_param "http://localhost:5000" "2020-01-01" "2020-12-31" (some "ftrt")).1
      (by decide)).1,
   ((eventsUrl_type_param "http://localhost:5000" "2020-01-01" "2020-12-31" none).2
      (by decide)).2⟩

/-- C6: every API response is a success envelope or a failure envelope;
getCorrelations returns the parsed response exactly when its success flag
is true, throws an error carrying the response message otherwise, and
never hands back a failure payload. -/
theorem getCorrelations_envelope (δ : Type) (resp : ApiEnvelope δ) :
    ((∃ d m, resp = ApiEnvelope.success d m) ∨ ∃ e m, resp = ApiEnvelope.failure e m) ∧
    (resp.isSuccess = true → getCorrelations resp = Except.ok resp) ∧
    (∀ e m, resp = ApiEnvelope.failure e m → m ≠ "" →
      getCorrelations resp = Except.error m) ∧
    (∀ r, getCorrelations resp = Except.ok r → r = resp ∧ resp.isSuccess = true) := by
  refine ⟨?_, ?_, ?_, ?_⟩
  · cases resp with
    | success d m => exact Or.inl ⟨d, m, rfl⟩
    | failure e m => exact Or.inr ⟨e, m, rfl⟩
  · intro h
    cases resp with
    | success d m => rfl
    | failure e m => simp [ApiEnvelope.isSuccess] at h
  · rintro e m rfl hm
    simp [getCorrelations, jsStringOr, hm]
  · intro r h
    cases resp with
    | success d m =>
        simp only [getCorrelations, Except.ok.injEq] at h
        subst h
        exact ⟨rfl, rfl⟩
    | failure e m => simp [getCorrelations] at h

/-- Witness for getCorrelations_envelope: a concrete failure envelope is
turned into a thrown error carrying its message, and a concrete success
envelope is returned unchanged. -/
theorem getCorrelations_envelope_witness :
    getCorrelations (ApiEnvelope.failure "DataUnavailable" "boom" : ApiEnvelope ℕ) =
      Except.error "boom" ∧
    getCorrelations (ApiEnvelope.success 7 "ok" : ApiEnvelope ℕ) =
      Except.ok (ApiEnvelope.success 7 "ok") :=
  ⟨(getCorrelations_envelope ℕ _).2.2.1 "DataUnavailable" "boom" rfl (by decide),
   (getCorrelations_envelope ℕ _).2.1 rfl⟩

/-- C3: a computed CorrelationResult is significant exactly when its
p-value is below 0.05 and the overlap sample count reaches the configured
minimum, and the stored p-value is the one the flag was derived from. -/
theorem significant_iff (α : Type) [inst : LinearOrderedField α] (minSamples : ℕ) (lag : ℤ)
    (cc p : α) (ci : Option (α × α)) (n : ℕ) :
    ((mkCorrelationResult minSamples lag cc p ci n).significant = true ↔
      p < 5 / 100 ∧ minSamples ≤ n) ∧
    (mkCorrelationResult minSamples lag cc p ci n).p_value = p := by
  refine ⟨?_, rfl⟩
  simp [mkCorrelationResult, significantFlag]

/-- C4 counterexample: on a concrete serialized cosmic event taken from
the documented response example, no field named event_type exists; the
event-type field is emitted under the key named type instead. -/
theorem serialized_event_type_counterexample :
    List.lookup "event_type"
      (serializeCosmicEvent
        { timestamp := "2020-05-15T12:00:00",
          event_type := CosmicEventType.planetary_alignment,
          magnitude := 21 / 10, duration_days := 5,
          description := "Significant FTRT peak detected." }) = none ∧
    List.lookup "type"
      (serializeCosmicEvent
        { timestamp := "2020-05-15T12:00:00",
          event_type := CosmicEventType.planetary_alignment,
          magnitude := 21 / 10, duration_days := 5,
          description := "Significant FTRT peak detected." }) =
      some (JVal.str "planetary_alignment") :=
  ⟨rfl, rfl⟩

/-- C4 amended: every serialized event preserves the section 3 shapes
except for the name of the event-type field, which is emitted as type:
the type field carries exactly the literal enum tokens, the timestamp is
carried as a string, the magnitude as a decimal number, significant as a
boolean, and no field named event_type is emitted. -/
theorem serialized_field_shapes (ce : CosmicEventJson) (ee : EvolutionaryEventJson)
    (cr : CorrelationResultJson) :
    List.lookup "type" (serializeCosmicEvent ce) =
      some (JVal.str (cosmicTypeToken ce.event_type)) ∧
    (cosmicTypeToken ce.event_type = "planetary_alignment" ∨
      cosmicTypeToken ce.event_type = "geomagnetic_weakness") ∧
    List.lookup "timestamp" (serializeCosmicEvent ce) = some (JVal.str ce.timestamp) ∧
    List.lookup "magnitude" (serializeCosmicEvent ce) = some (JVal.num ce.magnitude) ∧
    List.lookup "event_type" (serializeCosmicEvent ce) = none ∧
    List.lookup "type" (serializeEvolutionaryEvent ee) =
      some (JVal.str (evolutionaryTypeToken ee.event_type)) ∧
    (evolutionaryTypeToken ee.event_type = "speciation" ∨
      evolutionaryTypeToken ee.event_type = "extinction") ∧
    List.lookup "timestamp" (serializeEvolutionaryEvent ee) = some (JVal.str ee.timestamp) ∧
    List.lookup "event_type" (serializeEvolutionaryEvent ee) = none ∧
    List.lookup "significant" (serializeCorrelationResult cr) =
      some (JVal.bool cr.significant) := by
  obtain ⟨cts, cet, cmg, cdd, cds⟩ := ce
  obtain ⟨ets, eet, emg, etx, eds⟩ := ee
  obtain ⟨rcc, rp, rlag, rci, rsig⟩ := cr
  refine ⟨rfl, ?_, rfl, rfl, rfl, rfl, ?_, rfl, rfl, rfl⟩
  · cases cet <;> simp [cosmicTypeToken]
  · cases eet <;> simp [evolutionaryTypeToken]

/-- C5 counterexample: a DataExplorer invocation with an empty filter
sorts the received cosmicEvents array in place, so the received array is
changed afterwards (reordered), refuting the blanket immutability of
emitted event sequences. -/
theorem dataExplorer_mutation_counterexample :
    (dataExplorerData ActiveDataset.cosmic "" SortColumn.timestamp SortOrder.asc
        [evSampleB, evSampleA] []).2.1 ≠ [evSampleB, evSampleA] ∧
    (dataExplorerData ActiveDataset.cosmic "" SortColumn.timestamp SortOrder.asc
        [evSampleB, evSampleA] []).2.1 = [evSampleA, evSampleB] := by
  exact ⟨by decide, by decide⟩

/-- C5 amended: the received arrays survive a DataExplorer invocation
unchanged whenever a non-empty filter string is supplied (the component
then sorts a fresh filtered copy); with an empty filter the component
sorts the active dataset array in place. -/
theorem dataExplorer_preserves_inputs (ds : ActiveDataset) (flt : String) (sb : SortColumn)
    (so : SortOrder) (cosmicEvents evolutionaryEvents : List ExplorerEvent)
    (h : flt ≠ "") :
    (dataExplorerData ds flt sb so cosmicEvents evolutionaryEvents).2.1 = cosmicEvents ∧
    (dataExplorerData ds flt sb so cosmicEvents evolutionaryEvents).2.2 =
      evolutionaryEvents := by
  simp [dataExplorerData, h]

/-- Witness for dataExplorer_preserves_inputs at a concrete filtered
invocation. -/
theorem dataExplorer_preserves_inputs_witness :
    ("ftrt" ≠ "") ∧
    ((dataExplorerData ActiveDataset.cosmic "ftrt" SortColumn.magnitude SortOrder.desc
        [evSampleA] [evSampleB]).2.1 = [evSampleA] ∧
     (dataExplorerData ActiveDataset.cosmic "ftrt" SortColumn.magnitude SortOrder.desc
        [evSampleA] [evSampleB]).2.2 = [evSampleB]) :=
  ⟨by decide,
   dataExplorer_preserves_inputs ActiveDataset.cosmic "ftrt" SortColumn.magnitude
     SortOrder.desc [evSampleA] [evSampleB] (by decide)⟩

/-- C9 counterexample: starting from a state carrying a leftover error,
a handleRefresh run in which all three fetches succeed leaves the error
in place, while the initial useEffect fetch sequence clears it, so the
two sequences are not behaviourally equivalent. -/
theorem refresh_counterexample :
    handleRefresh dashSampleState dashSampleFetches ≠
      fetchData dashSampleState dashSampleFetches ∧
    (handleRefresh dashSampleState dashSampleFetches).error = some "previous failure" ∧
    (fetchData dashSampleState dashSampleFetches).error = none := by
  exact ⟨by decide, by decide, by decide⟩

/-- C9 amended: handleRefresh is behaviourally equivalent to the initial
useEffect fetch sequence whenever the prior error field is null or some
fetch fails; only a fully successful refresh starting from a non-null
error differs, because handleRefresh omits clearing the error. -/
theorem refresh_equiv_initial (α β γ : Type) (s : DashState α β γ) (r : FetchResults α β γ)
    (h : s.error = none ∨ fetchFails r) :
    handleRefresh s r = fetchData s r := by
  obtain ⟨l, err, co, cev, eev⟩ := s
  obtain ⟨r1, r2, r3⟩ := r
  rcases h with h | h | h | h
  · replace h : err = none := h
    subst h
    rfl
  · cases r1 with
    | error m => rfl
    | ok c => simp [Except.isOk, Except.toBool] at h
  · cases r1 with
    | error m => rfl
    | ok c =>
        cases r2 with
        | error m => rfl
        | ok ce => simp [Except.isOk, Except.toBool] at h
  · cases r1 with
    | error m => rfl
    | ok c =>
        cases r2 with
        | error m => rfl
        | ok ce =>
            cases r3 with
            | error m => rfl
            | ok ee => simp [Except.isOk, Except.toBool] at h

/-- Witness for refresh_equiv_initial: from a state with no pending
error, a successful refresh and the initial fetch produce the same
state. -/
theorem refresh_equiv_initial_witness :
    handleRefresh (⟨true, none, none, 0, 0⟩ : DashState ℕ ℕ ℕ) dashSampleFetches =
      fetchData (⟨true, none, none, 0, 0⟩ : DashState ℕ ℕ ℕ) dashSampleFetches :=
  refresh_equiv_initial ℕ ℕ ℕ ⟨true, none, none, 0, 0⟩ dashSampleFetches (Or.inl rfl)

/-- C8: GetCorrelationReport is deterministic and idempotent; two
invocations with identical window, lag bound, configuration and frozen
upstream data yield identical reports, correlation result lists and best
correlations. -/
theorem getCorrelationReport_deterministic (cfg cfg' : EngineConfig) (s s' e e' : ℤ)
    (m m' : ℕ) (c c' : List CosmicEvent) (v v' : List EvolutionaryEvent)
    (hcfg : cfg = cfg') (hs : s = s') (he : e = e') (hm : m = m') (hc : c = c')
    (hv : v = v') :
    GetCorrelationReport cfg s e m c v = GetCorrelationReport cfg' s' e' m' c' v' := by
  subst hcfg hs he hm hc hv
  rfl

/-- Witness for getCorrelationReport_deterministic at a concrete
invocation. -/
theorem getCorrelationReport_deterministic_witness :
    GetCorrelationReport cfgDefault 0 1 365 [] [] =
      GetCorrelationReport cfgDefault 0 1 365 [] [] :=
  getCorrelationReport_deterministic cfgDefault cfgDefault 0 0 1 1 365 365 [] [] [] []
    rfl rfl rfl rfl rfl rfl

/-- Folding the selection step from a present incumbent never yields an
absent result. -/
theorem selectStep_foldl_isSome {α : Type} [LinearOrderedField α] :
    ∀ (rs : List (CorrelationResult α)) (b : CorrelationResult α),
      (List.foldl selectStep (some b) rs).isSome = true := by
  intro rs
  induction rs with
  | nil => intro b; rfl
  | cons r rs ih =>
      intro b
      rw [List.foldl_cons]
      cases hb : betterResult r b <;> simp only [selectStep, hb] <;>
        first
          | exact ih r
          | exact ih b

/-- The selection returns none exactly on the empty result list. -/
theorem selectBest_eq_none_iff {α : Type} [LinearOrderedField α]
    (rs : List (CorrelationResult α)) :
    selectBest rs = none ↔ rs = [] := by
  constructor
  · intro h
    cases rs with
    | nil => rfl
    | cons r rs =>
        exfalso
        have hs := selectStep_foldl_isSome rs r
        rw [selectBest, List.foldl_cons] at h
        have hstep : selectStep (none : Option (CorrelationResult α)) r = some r := rfl
        rw [hstep] at h
        rw [h] at hs
        simp at hs
  · rintro rfl
    rfl

/-- C7: a report produced by the orchestrator has an absent
best_correlation exactly when no lag produced a valid correlation
result, and the Dashboard renders the Key Findings card exactly when the
fetched correlations object is present and its best_correlation field is
present. -/
theorem bestCorrelation_absent_iff (cfg : EngineConfig) (s e : ℤ) (m : ℕ)
    (c : List CosmicEvent) (v : List EvolutionaryEvent) (rep : CorrelationReport ℝ)
    (hrep : GetCorrelationReport cfg s e m c v = Except.ok rep)
    (α : Type) (co : Option (CorrelationReport α)) :
    (rep.best_correlation = none ↔ rep.correlation_results = []) ∧
    (showKeyFindings co = true ↔
      ∃ cr, co = some cr ∧ cr.best_correlation.isSome = true) := by
  constructor
  · rw [GetCorrelationReport] at hrep
    by_cases hr : e ≤ s
    · rw [if_pos hr] at hrep
      exact absurd hrep (by simp)
    · rw [if_neg hr] at hrep
      simp only [Except.ok.injEq] at hrep
      subst hrep
      exact selectBest_eq_none_iff _
  · cases co with
    | none => simp [showKeyFindings]
    | some cr => simp [showKeyFindings]

/-- Witness for bestCorrelation_absent_iff: a concrete empty-data
invocation yields a report with an absent best correlation and an empty
result list, and the Key Findings guard evaluates on an absent
correlations object. -/
theorem bestCorrelation_absent_iff_witness :
    (repEmpty.best_correlation = none ↔ repEmpty.correlation_results = []) ∧
    (showKeyFindings (none : Option (CorrelationReport ℚ)) = true ↔
      ∃ cr, (none : Option (CorrelationReport ℚ)) = some cr ∧
        cr.best_correlation.isSome = true) :=
  bestCorrelation_absent_iff cfgDefault 0 1 365 [] [] repEmpty rfl ℚ none

/-- A result is strictly better exactly when its ranking key is
smaller. -/
theorem betterResult_iff_keyLt {α : Type} [LinearOrderedField α]
    (a b : CorrelationResult α) :
    betterResult a b = true ↔ resultKey a < resultKey b := by
  rw [betterResult, decide_eq_true_eq, resultKey, resultKey]
  rw [Prod.Lex.lt_iff, Prod.Lex.lt_iff]
  simp only [neg_lt_neg_iff, neg_inj]

/-- A result fails to be strictly better exactly when its ranking key is
at least the other key. -/
theorem not_better_iff_keyLe {α : Type} [LinearOrderedField α]
    (a b : CorrelationResult α) :
    betterResult a b = false ↔ resultKey b ≤ resultKey a := by
  rw [← not_lt, ← betterResult_iff_keyLt]
  cases betterResult a b <;> simp

/-- Invariant of the selection fold: the final choice is the incumbent or
one of the scanned results, and its key is minimal among them. -/
theorem selectStep_foldl_spec {α : Type} [LinearOrderedField α] :
    ∀ (rs : List (CorrelationResult α)) (b best : CorrelationResult α),
      List.foldl selectStep (some b) rs = some best →
      (best = b ∨ best ∈ rs) ∧ resultKey best ≤ resultKey b ∧
        ∀ r ∈ rs, resultKey best ≤ resultKey r := by
  intro rs
  induction rs with
  | nil =>
      intro b best h
      simp only [List.foldl_nil, Option.some.injEq] at h
      subst h
      exact ⟨Or.inl rfl, le_refl _, by simp⟩
  | cons r rs ih =>
      intro b best h
      rw [List.foldl_cons] at h
      by_cases hbr : betterResult r b = true
      · have hstep : selectStep (some b) r = some r := by simp [selectStep, hbr]
        rw [hstep] at h
        obtain ⟨hmem, hle, hall⟩ := ih r best h
        have hrb : resultKey r < resultKey b := (betterResult_iff_keyLt r b).mp hbr
        refine ⟨?_, le_trans hle (le_of_lt hrb), ?_⟩
        · rcases hmem with rfl | hm
          · exact Or.inr (List.mem_cons_self _ _)
          · exact Or.inr (List.mem_cons_of_mem _ hm)
        · intro q hq
          rcases List.mem_cons.mp hq with rfl | hq'
          · exact hle
          · exact hall q hq'
      · have hbr' : betterResult r b = false := by
          cases hb : betterResult r b
          · rfl
          · exact absurd hb hbr
        have hstep : selectStep (some b) r = some b := by simp [selectStep, hbr']
        rw [hstep] at h
        obtain ⟨hmem, hle, hall⟩ := ih b best h
        have hrb : resultKey b ≤ resultKey r := (not_better_iff_keyLe r b).mp hbr'
        refine ⟨?_, hle, ?_⟩
        · rcases hmem with rfl | hm
          · exact Or.inl rfl
          · exact Or.inr (List.mem_cons_of_mem _ hm)
        · intro q hq
          rcases List.mem_cons.mp hq with rfl | hq'
          · exact le_trans hle hrb
          · exact hall q hq'

/-- Unfolding of key minimality into the tie-break inequalities of the
specification. -/
theorem key_le_unfold {α : Type} [LinearOrderedField α]
    (best r : CorrelationResult α) (h : resultKey best ≤ resultKey r) :
    |r.correlation_coefficient| ≤ |best.correlation_coefficient| ∧
    (|r.correlation_coefficient| = |best.correlation_coefficient| →
      best.p_value ≤ r.p_value ∧
      (r.p_value = best.p_value → |best.time_lag_days| ≤ |r.time_lag_days|)) := by
  rw [resultKey, resultKey, Prod.Lex.le_iff] at h
  simp only at h
  rcases h with h | ⟨he, h2⟩
  · have hlt : |r.correlation_coefficient| < |best.correlation_coefficient| :=
      neg_lt_neg_iff.mp h
    exact ⟨le_of_lt hlt, fun he => absurd he (ne_of_lt hlt)⟩
  · have he' : |r.correlation_coefficient| = |best.correlation_coefficient| :=
      (neg_inj.mp he).symm
    rw [Prod.Lex.le_iff] at h2
    simp only at h2
    rcases h2 with h2 | ⟨hp, hl⟩
    · exact ⟨le_of_eq he', fun _ => ⟨le_of_lt h2, fun hpe => absurd hpe (ne_of_gt h2)⟩⟩
    · exact ⟨le_of_eq he', fun _ => ⟨le_of_eq hp, fun _ => hl⟩⟩

/-- C1: in every report the selected best correlation is one of the
computed results and has the largest absolute correlation coefficient;
ties are broken by smaller p-value, then by smaller absolute time lag,
and the report's best_correlation field is exactly the selection over its
correlation_results. -/
theorem selectBest_maximal (α : Type) [inst : LinearOrderedField α]
    (rs : List (CorrelationResult α)) (best : CorrelationResult α)
    (h : selectBest rs = some best)
    (cfg : EngineConfig) (s e : ℤ) (m : ℕ) (c : List CosmicEvent)
    (v : List EvolutionaryEvent) (rep : CorrelationReport ℝ)
    (hrep : GetCorrelationReport cfg s e m c v = Except.ok rep) :
    (best ∈ rs ∧ ∀ r ∈ rs,
      |r.correlation_coefficient| ≤ |best.correlation_coefficient| ∧
      (|r.correlation_coefficient| = |best.correlation_coefficient| →
        best.p_value ≤ r.p_value ∧
        (r.p_value = best.p_value → |best.time_lag_days| ≤ |r.time_lag_days|))) ∧
    rep.best_correlation = selectBest rep.correlation_results := by
  constructor
  · cases rs with
    | nil => exact absurd h (by simp [selectBest])
    | cons r0 rs' =>
        rw [selectBest, List.foldl_cons] at h
        have hstep : selectStep (none : Option (CorrelationResult α)) r0 = some r0 := rfl
        rw [hstep] at h
        obtain ⟨hmem, hle, hall⟩ := selectStep_foldl_spec rs' r0 best h
        constructor
        · rcases hmem with rfl | hm
          · exact List.mem_cons_self _ _
          · exact List.mem_cons_of_mem _ hm
        · intro r hr
          rcases List.mem_cons.mp hr with rfl | hr'
          · exact key_le_unfold best r hle
          · exact key_le_unfold best r (hall r hr')
  · rw [GetCorrelationReport] at hrep
    by_cases hr : e ≤ s
    · rw [if_pos hr] at hrep
      exact absurd hrep (by simp)
    · rw [if_neg hr] at hrep
      simp only [Except.ok.injEq] at hrep
      subst hrep
      rfl

/-- Witness for selectBest_maximal: over a concrete two-result list the
selection returns the documented strongest result and the maximality
facts hold for it, and the concrete empty-data report carries exactly the
selection over its (empty) result list. -/
theorem selectBest_maximal_witness :
    (resSampleA ∈ [resSampleA, resSampleB] ∧ ∀ r ∈ [resSampleA, resSampleB],
      |r.correlation_coefficient| ≤ |resSampleA.correlation_coefficient| ∧
      (|r.correlation_coefficient| = |resSampleA.correlation_coefficient| →
        resSampleA.p_value ≤ r.p_value ∧
        (r.p_value = resSampleA.p_value →
          |resSampleA.time_lag_days| ≤ |r.time_lag_days|))) ∧
    repEmpty.best_correlation = selectBest repEmpty.correlation_results :=
  selectBest_maximal ℚ [resSampleA, resSampleB] resSampleA
    (by
      have hb : betterResult resSampleB resSampleA = false := by
        apply decide_eq_false
        push_neg
        have e1 : |(-1 : ℚ) / 2| = 1 / 2 := by
          rw [abs_of_nonpos (by norm_num)]
          norm_num
        have e2 : |(65 : ℚ) / 100| = 65 / 100 := abs_of_nonneg (by norm_num)
        simp only [resSampleA, resSampleB]
        rw [e1, e2]
        exact ⟨by norm_num, fun h => absurd h (by norm_num)⟩
      simp [selectBest, List.foldl_cons, List.foldl_nil, selectStep, hb])
    cfgDefault 0 1 365 [] [] repEmpty rfl

/-- Monotonicity of the hyperbolic tangent, used for the ordering of the
Fisher interval bounds. -/
theorem tanh_le_tanh_of_le (a b : ℝ) (hab : a ≤ b) : Real.tanh a ≤ Real.tanh b := by
  have e : ∀ x : ℝ, Real.tanh x =
      (Real.exp x - Real.exp (-x)) / (Real.exp x + Real.exp (-x)) := by
    intro x
    have hpos : 0 < Real.exp x + Real.exp (-x) := by positivity
    rw [Real.tanh_eq_sinh_div_cosh, Real.sinh_eq, Real.cosh_eq]
    field_simp
  rw [e a, e b]
  have ha : 0 < Real.exp a + Real.exp (-a) := by positivity
  have hb : 0 < Real.exp b + Real.exp (-b) := by positivity
  rw [div_le_div_iff₀ ha hb]
  have h1 : Real.exp a ≤ Real.exp b := Real.exp_le_exp.mpr hab
  have h2 : Real.exp (-b) ≤ Real.exp (-a) := Real.exp_le_exp.mpr (neg_le_neg hab)
  have h3 : Real.exp a * Real.exp (-b) ≤ Real.exp b * Real.exp (-a) :=
    mul_le_mul h1 h2 (Real.exp_pos _).le (Real.exp_pos _).le
  nlinarith [Real.exp_pos a, Real.exp_pos b, Real.exp_pos (-a), Real.exp_pos (-b)]

/-- A computed Pearson coefficient lies in the closed interval from minus
one to one, by the Cauchy-Schwarz inequality. -/
theorem pearson_bounds (n : ℕ) (x y : ℕ → ℝ) (r : ℝ) (h : pearsonR n x y = some r) :
    -1 ≤ r ∧ r ≤ 1 := by
  rw [pearsonR] at h
  split at h
  · exact absurd h (by simp)
  · rename_i hsd
    simp only [Option.some.injEq] at h
    subst h
    have hx0 : (0 : ℝ) ≤ ∑ i ∈ Finset.range n, seriesDev n x i ^ 2 :=
      Finset.sum_nonneg fun i _ => sq_nonneg _
    have hy0 : (0 : ℝ) ≤ ∑ i ∈ Finset.range n, seriesDev n y i ^ 2 :=
      Finset.sum_nonneg fun i _ => sq_nonneg _
    have hsd0 : 0 ≤ seriesSd n x * seriesSd n y :=
      mul_nonneg (Real.sqrt_nonneg _) (Real.sqrt_nonneg _)
    have hsdpos : 0 < seriesSd n x * seriesSd n y := lt_of_le_of_ne hsd0 (Ne.symm hsd)
    have hcs : covSum n x y ^ 2 ≤
        (∑ i ∈ Finset.range n, seriesDev n x i ^ 2) *
          ∑ i ∈ Finset.range n, seriesDev n y i ^ 2 := by
      simp only [covSum]
      exact Finset.sum_mul_sq_le_sq_mul_sq (Finset.range n) (seriesDev n x) (seriesDev n y)
    have habs : |covSum n x y| ≤ seriesSd n x * seriesSd n y := by
      simp only [seriesSd]
      rw [← Real.sqrt_mul hx0]
      calc |covSum n x y| = Real.sqrt (covSum n x y ^ 2) := (Real.sqrt_sq_eq_abs _).symm
        _ ≤ Real.sqrt ((∑ i ∈ Finset.range n, seriesDev n x i ^ 2) *
              ∑ i ∈ Finset.range n, seriesDev n y i ^ 2) := Real.sqrt_le_sqrt hcs
    have hone : |covSum n x y / (seriesSd n x * seriesSd n y)| ≤ 1 := by
      rw [abs_div, abs_of_nonneg hsd0, div_le_one hsdpos]
      exact habs
    exact abs_le.mp hone

/-- A two-sided p-value computed from a genuine cumulative distribution
function lies in the closed unit interval. -/
theorem pValue_bounds (cdf : ℝ → ℝ) (hmono : Monotone cdf) (hhalf : cdf 0 = 1 / 2)
    (hub : ∀ t, cdf t ≤ 1) (t : ℝ) : 0 ≤ pValue cdf t ∧ pValue cdf t ≤ 1 := by
  have h1 : cdf |t| ≤ 1 := hub _
  have h2 : 1 / 2 ≤ cdf |t| := by
    rw [← hhalf]
    exact hmono (abs_nonneg t)
  unfold pValue
  constructor <;> linarith

/-- A computed Fisher confidence interval is ordered, low bound at most
high bound. -/
theorem fisherCI_orders (r : ℝ) (n : ℕ) (l h : ℝ) (hci : fisherCI r n = some (l, h)) :
    l ≤ h := by
  simp only [fisherCI] at hci
  split at hci
  · exact absurd hci (by simp)
  · simp only [Option.some.injEq, Prod.mk.injEq] at hci
    obtain ⟨hl, hh⟩ := hci
    subst hl
    subst hh
    have hd : 0 ≤ 196 / 100 / Real.sqrt ((n : ℝ) - 3) :=
      div_nonneg (by norm_num) (Real.sqrt_nonneg _)
    exact tanh_le_tanh_of_le _ _ (by linarith)

/-- C2: every computed CorrelationResult has its correlation coefficient
in the interval from minus one to one, its p-value (computed from any
genuine cumulative distribution function) in the unit interval, and,
when its confidence interval is defined, an ordered pair of bounds. -/
theorem computedResult_bounds (cfg : EngineConfig)
    (hmono : Monotone cfg.cdf) (hhalf : cfg.cdf 0 = 1 / 2) (hub : ∀ t, cfg.cdf t ≤ 1)
    (lo hi : ℤ) (cs es : ℤ → ℚ) (lag : ℤ) (res : CorrelationResult ℝ)
    (hres : resultAtLag cfg lo hi cs es lag = some res) :
    (-1 ≤ res.correlation_coefficient ∧ res.correlation_coefficient ≤ 1) ∧
    (0 ≤ res.p_value ∧ res.p_value ≤ 1) ∧
    (∀ l h, res.confidence_interval = some (l, h) → l ≤ h) := by
  simp only [resultAtLag] at hres
  split at hres
  · exact absurd hres (by simp)
  · split at hres
    · exact absurd hres (by simp)
    · rename_i r hpr
      simp only [Option.some.injEq] at hres
      subst hres
      simp only [mkCorrelationResult]
      refine ⟨pearson_bounds _ _ _ _ hpr, pValue_bounds _ hmono hhalf hub _, ?_⟩
      intro l h hci
      exact fisherCI_orders _ _ _ _ hci

/-- The sample step distribution function is monotone. -/
theorem cdfStep_monotone : Monotone cdfStep := by
  intro a b hab
  simp only [cdfStep]
  by_cases h0a : (0 : ℝ) ≤ a
  · rw [if_pos h0a, if_pos (le_trans h0a hab)]
  · rw [if_neg h0a]
    by_cases h0b : (0 : ℝ) ≤ b
    · rw [if_pos h0b]
      norm_num
    · rw [if_neg h0b]

/-- The sample step distribution function equals one half at zero. -/
theorem cdfStep_zero : cdfStep 0 = 1 / 2 := by
  simp only [cdfStep]
  rw [if_pos le_rfl]

/-- The sample step distribution function is bounded by one. -/
theorem cdfStep_le_one : ∀ t, cdfStep t ≤ 1 := by
  intro t
  simp only [cdfStep]
  split <;> norm_num

/-- Concrete evaluation of the lag-zero sweep step on the sample series:
two overlapping samples, perfect self-correlation, p-value one and no
confidence interval. -/
theorem resultAtLag_sample :
    resultAtLag cfgSample 0 1 seriesSample seriesSample 0 = some resWitness := by
  have hf0 : ((seriesSample ((0 : ℕ) : ℤ) : ℚ) : ℝ) = 0 := by
    simp [seriesSample]
  have hf1 : ((seriesSample ((1 : ℕ) : ℤ) : ℚ) : ℝ) = 1 := by
    simp [seriesSample]
  have hsum : (∑ i ∈ Finset.range 2, ((seriesSample (i : ℤ) : ℚ) : ℝ)) = 1 := by
    rw [Finset.sum_range_succ, Finset.sum_range_one, hf0, hf1]
    norm_num
  have hmean : seriesMean 2 (fun i : ℕ => ((seriesSample (i : ℤ) : ℚ) : ℝ)) = 1 / 2 := by
    rw [seriesMean, hsum]
    norm_num
  have hdev0 : seriesDev 2 (fun i : ℕ => ((seriesSample (i : ℤ) : ℚ) : ℝ)) 0 = -(1 / 2) := by
    rw [seriesDev, hmean]
    simpa using hf0
  have hdev1 : seriesDev 2 (fun i : ℕ => ((seriesSample (i : ℤ) : ℚ) : ℝ)) 1 = 1 / 2 := by
    rw [seriesDev, hmean]
    show ((seriesSample ((1 : ℕ) : ℤ) : ℚ) : ℝ) - 1 / 2 = 1 / 2
    rw [hf1]
    norm_num
  have hsd2 : (∑ i ∈ Finset.range 2,
      seriesDev 2 (fun i : ℕ => ((seriesSample (i : ℤ) : ℚ) : ℝ)) i ^ 2) = 1 / 2 := by
    rw [Finset.sum_range_succ, Finset.sum_range_one, hdev0, hdev1]
    norm_num
  have hss : seriesSd 2 (fun i : ℕ => ((seriesSample (i : ℤ) : ℚ) : ℝ)) *
      seriesSd 2 (fun i : ℕ => ((seriesSample (i : ℤ) : ℚ) : ℝ)) = 1 / 2 := by
    rw [seriesSd, hsd2]
    exact Real.mul_self_sqrt (by norm_num)
  have hcov : covSum 2 (fun i : ℕ => ((seriesSample (i : ℤ) : ℚ) : ℝ))
      (fun i : ℕ => ((seriesSample (i : ℤ) : ℚ) : ℝ)) = 1 / 2 := by
    rw [covSum, Finset.sum_range_succ, Finset.sum_range_one, hdev0, hdev1]
    norm_num
  have hp : pearsonR 2 (fun i : ℕ => ((seriesSample (i : ℤ) : ℚ) : ℝ))
      (fun i : ℕ => ((seriesSample (i : ℤ) : ℚ) : ℝ)) = some 1 := by
    rw [pearsonR, if_neg (by rw [hss]; norm_num), hcov, hss]
    norm_num
  have htstat : tStatistic 1 2 = 0 := by
    rw [tStatistic]
    norm_num
  have hpv : pValue cdfStep 0 = 1 := by
    rw [pValue, abs_zero, cdfStep]
    rw [if_pos le_rfl]
    norm_num
  have hfci : fisherCI (1 : ℝ) 2 = none := by
    rw [fisherCI, if_pos (by norm_num)]
  simp only [resultAtLag, cfgSample]
  norm_num
  rw [show Int.toNat 2 = 2 from rfl]
  simp only [hp, htstat, hpv, hfci]
  rfl

/-- Witness for computedResult_bounds: the bounds hold for the concrete
lag-zero result computed from the sample series under the sample step
distribution function. -/
theorem computedResult_bounds_witness :
    (-1 ≤ resWitness.correlation_coefficient ∧ resWitness.correlation_coefficient ≤ 1) ∧
    (0 ≤ resWitness.p_value ∧ resWitness.p_value ≤ 1) ∧
    (∀ l h, resWitness.confidence_interval = some (l, h) → l ≤ h) :=
  computedResult_bounds cfgSample cdfStep_monotone cdfStep_zero cdfStep_le_one
    0 1 seriesSample seriesSample 0 resWitness resultAtLag_sample
